import Mathlib

/-!
Verification of the libkrimes Kerberos client core against its
natural-language specification.  The Rust sources embedded here are
`src/lib.rs` (the RFC 1831 record-marking transport codec),
`src/proto/request.rs` (the domain model, request builder, pre-auth
negotiation and the domain ↔ wire KDC-REQ transcoding) and
`src/error.rs` (the error enumeration).

Bytes are modelled as `Nat` (values below 256 at every concrete input),
buffers as `List Nat`.  Rust `Result` maps to `Except`; code paths that
can unwind (`expect`, `todo!`, `debug_assert!`) are modelled by a
dedicated `panicked` constructor of `PResult` so that panics are visible
in the embedding rather than erased.

The leaf ASN.1 DER codecs, the `Name` conversions, the constants module
and the crypto subsystem live in repository files that are not part of
the given sources; where a definition models such a missing part its doc
comment says so and follows the specification's wording.
-/

/-- Error enumeration, embedded from `src/error.rs` (`KrbError`). -/
inductive KrbError
  | InvalidHmacSha1Key
  | MessageAuthenticationFailed
  | MessageEmpty
  | InsufficientData
  | PlaintextEmpty
  | CtsCiphertextInvalid
  | UnsupportedEncryption
  | MissingPaData
  | DerDecodePaData
  | DerDecodeEtypeInfo2
  | DerEncodePaEncTsEnc
  | PreAuthUnsupported
  | PreAuthMissingEtypeInfo2
  | PreAuthInvalidUnixTs
  | PreAuthInvalidS2KParams
  | InvalidMessageType
  | InvalidMessageDirection
  | InvalidPvno
  | InvalidEnumValue (field : String) (value : Int)
  | DerEncodeOctetString
  | MissingClientName
  | MissingServiceNameWithRealm
  deriving DecidableEq, Repr

/-- Result type for fallible Rust code that can also unwind: `.ok` and
`.err` are the two `Result` arms, `.panicked` marks a reachable
`expect`/`todo!`/assertion unwinding path. -/
inductive PResult (ε : Type) (α : Type)
  | ok (a : α)
  | err (e : ε)
  | panicked
  deriving DecidableEq, Repr

def PResult.bind {ε α β : Type} : PResult ε α → (α → PResult ε β) → PResult ε β
  | .ok a, f => f a
  | .err e, _ => .err e
  | .panicked, _ => .panicked

/-- Modelled from the spec: `EncryptionType` (the constants module
`src/asn1/constants/encryption_types.rs` is not among the given
sources).  The spec calls it a closed enumeration in which only
`AES256_CTS_HMAC_SHA1_96` is accepted; other wire values are
representable but rejected at the point of use.  Wire codes follow
RFC 3961/4757 (18, 17, 23). -/
inductive EncryptionType
  | AES256_CTS_HMAC_SHA1_96
  | AES128_CTS_HMAC_SHA1_96
  | RC4_HMAC
  deriving DecidableEq, Repr

/-- Modelled from the spec: the numeric wire code of an encryption type
(`EncryptionType as i32` in the missing constants module). -/
def EncryptionType.code : EncryptionType → Int
  | .AES256_CTS_HMAC_SHA1_96 => 18
  | .AES128_CTS_HMAC_SHA1_96 => 17
  | .RC4_HMAC => 23

/-- Modelled from the spec: `EncryptionType::try_from` on a wire integer
(missing constants module); unknown values are rejected. -/
def EncryptionType.try_from (v : Int) : Option EncryptionType :=
  if v = 18 then some .AES256_CTS_HMAC_SHA1_96
  else if v = 17 then some .AES128_CTS_HMAC_SHA1_96
  else if v = 23 then some .RC4_HMAC
  else none

/-- Modelled from the spec: `KrbMessageType` (missing constants module
`src/asn1/constants/message_types.rs`); codes per RFC 4120 §7.5.7. -/
inductive KrbMessageType
  | KrbAsReq
  | KrbAsRep
  | KrbTgsReq
  | KrbTgsRep
  | KrbErrorMsg
  deriving DecidableEq, Repr

/-- Modelled from the spec: the numeric wire code of a message type. -/
def KrbMessageType.code : KrbMessageType → Nat
  | .KrbAsReq => 10
  | .KrbAsRep => 11
  | .KrbTgsReq => 12
  | .KrbTgsRep => 13
  | .KrbErrorMsg => 30

/-- Modelled from the spec: `KrbMessageType::try_from` on a wire
integer; unknown values are rejected. -/
def KrbMessageType.try_from (v : Nat) : Option KrbMessageType :=
  if v = 10 then some .KrbAsReq
  else if v = 11 then some .KrbAsRep
  else if v = 12 then some .KrbTgsReq
  else if v = 13 then some .KrbTgsRep
  else if v = 30 then some .KrbErrorMsg
  else none

/-- Modelled from the spec: pre-auth data type codes (missing constants
module); `PA-ENC-TIMESTAMP = 2`, `PA-FX-COOKIE = 133` per RFC 4120 /
RFC 6113. -/
def PaDataType.PaEncTimestamp : Nat := 2

/-- Modelled from the spec: `PA-FX-COOKIE` wire code 133. -/
def PaDataType.PaFxCookie : Nat := 133

/-- Wire `PrincipalName`: a name type and a list of name components
(the leaf ASN.1 structure; its DER codec is out of scope per the
spec). -/
structure PrincipalName where
  name_type : Int
  name_string : List String
  deriving DecidableEq, Repr

/-- Modelled from the spec: the domain `Name` type (defined in the
missing `src/proto/mod.rs`).  Per the spec a `Name` holds one or more
name components plus a realm string; a client principal maps to an
`NT-PRINCIPAL` wire name with the realm carried beside it, while a
service name maps to an `NT-SRV-INST` wire name whose second component
carries the realm ("the service name's realm is taken from the sname's
own structure"). -/
inductive Name
  | principal (name : String) (realm : String)
  | srv_inst (service : String) (realm : String)
  deriving DecidableEq, Repr

/-- Modelled from the spec: `Name::principal_name`, returning the
canonical principal component and realm used to build the internal
string-to-key salt (spec §4.1: salt defaults to realm + principal). -/
def Name.principal_name : Name → Except KrbError (String × String)
  | .principal n r => .ok (n, r)
  | .srv_inst s r => .ok (s, r)

/-- Modelled from the spec: conversion of a domain `Name` to the wire
pair `(PrincipalName, Realm)` used for `cname`/`realm` (missing
`src/proto/mod.rs`). -/
def Name.to_principal_realm : Name → PrincipalName × String
  | .principal n r => (⟨1, [n]⟩, r)
  | .srv_inst s r => (⟨2, [s, r]⟩, r)

/-- Modelled from the spec: conversion of a domain `Name` to a wire
`PrincipalName` used for `sname`; for a service name the realm rides in
the second name component. -/
def Name.to_principal : Name → PrincipalName
  | .principal n _ => ⟨1, [n]⟩
  | .srv_inst s r => ⟨2, [s, r]⟩

/-- Modelled from the spec: rebuilding a domain `Name` from the wire
`(cname, realm)` pair of a KDC-REQ body. -/
def Name.try_from_principal_realm (p : PrincipalName) (realm : String) :
    Except KrbError Name :=
  match p.name_type, p.name_string with
  | 1, [n] => .ok (.principal n realm)
  | 2, [s, r] => .ok (.srv_inst s r)
  | t, _ => .error (.InvalidEnumValue "name_type" t)

/-- Modelled from the spec: rebuilding a domain `Name` from a wire
`sname` alone; the realm is taken from the sname's own structure
(second `NT-SRV-INST` component), reproducing the protocol ambiguity
the spec documents. -/
def Name.try_from_principal (p : PrincipalName) : Except KrbError Name :=
  match p.name_type, p.name_string with
  | 2, [s, r] => .ok (.srv_inst s r)
  | 1, [n] => .ok (.principal n "")
  | t, _ => .error (.InvalidEnumValue "name_type" t)

/-- Domain `EncryptedData`, embedded from the usage in
`src/proto/request.rs` and spec §3: the single variant carries an
optional key-version number and opaque ciphertext bytes. -/
inductive EncryptedData
  | Aes256CtsHmacSha196 (kvno : Option Nat) (data : List Nat)
  deriving DecidableEq, Repr

/-- Domain `Preauth` (spec §3): the pre-auth material attached to a
request — an optional computed encrypted timestamp and an optional
echoed cookie.  Default is empty. -/
structure Preauth where
  enc_timestamp : Option EncryptedData := none
  pa_fx_cookie : Option (List Nat) := none
  deriving DecidableEq, Repr

/-- Domain `ETypeInfo2Entry` (spec §3): algorithm, optional external
salt, optional string-to-key iteration parameters. -/
structure ETypeInfo2Entry where
  etype : EncryptionType
  salt : Option String
  s2kparams : Option (List Nat)
  deriving DecidableEq, Repr

/-- Domain `PreauthData` (spec §3): server-advertised pre-auth
capability — encrypted-timestamp support flag, ordered `ETypeInfo2Entry`
list, opaque continuation cookie. -/
structure PreauthData where
  enc_timestamp : Bool
  etype_info2 : List ETypeInfo2Entry
  pa_fx_cookie : Option (List Nat)
  deriving DecidableEq, Repr

/-- Modelled from the spec: the first second NOT representable as a
`KerberosTime` (ASN.1 GeneralizedTime is limited to year 9999, so the
representable epoch seconds are those below 10000-01-01T00:00:00Z). -/
def kerberosTimeMax : Nat := 253402300800

/-- Modelled from the spec: `KerberosTime::from_unix_duration` /
`from_system_time` at second granularity — succeeds exactly when the
timestamp is representable in the wire time format. -/
def kerberos_time_from_unix (secs : Nat) : Option Nat :=
  if secs < kerberosTimeMax then some secs else none

/-- Wire `PA-DATA` entry: type code plus opaque DER payload bytes. -/
structure PaData where
  padata_type : Nat
  padata_value : List Nat
  deriving DecidableEq, Repr

/-- Wire `EncryptedData` ASN.1 structure (`KdcEncryptedData` in the
source): algorithm code, optional key-version number, ciphertext. -/
structure KdcEncryptedData where
  etype : Int
  kvno : Option Nat
  cipher : List Nat
  deriving DecidableEq, Repr

/-- Modelled from the spec: the leaf DER encoder for the wire
`EncryptedData` structure (the ASN.1 codecs are out of scope, "treated
as a given encode/decode capability").  Modelled as an injective flat
encoding; no claim depends on the concrete bytes. -/
def KdcEncryptedData.to_der (e : KdcEncryptedData) : List Nat :=
  [e.etype.toNat, match e.kvno with | none => 0 | some k => k + 1] ++ e.cipher

/-- Modelled from the spec: the leaf DER encoder for `PaEncTsEnc`
(timestamp plus microseconds); injective flat encoding, bytes opaque to
every claim. -/
def pa_enc_ts_enc_to_der (patimestamp : Nat) (pausec : Nat) : List Nat :=
  [patimestamp, pausec]

/-- Wire `KDC-REQ-BODY`, embedded from the field usage in
`src/proto/request.rs` (`kdc_options`, `cname`, `realm`, `sname`,
`from`, `till`, `rtime`, `nonce`, `etype`; the remaining three optional
fields are always absent in this code and are omitted).  Times are
`KerberosTime` values modelled as epoch seconds. -/
structure KdcReqBody where
  kdc_options : List Nat
  cname : Option PrincipalName
  realm : String
  sname : Option PrincipalName
  from_time : Option Nat
  till : Nat
  rtime : Option Nat
  nonce : Nat
  etype : List Int
  deriving DecidableEq, Repr

/-- Wire `KDC-REQ`, embedded from `src/proto/request.rs`. -/
structure KdcReq where
  pvno : Nat
  msg_type : Nat
  padata : Option (List PaData)
  req_body : KdcReqBody
  deriving DecidableEq, Repr

/-- Wire top-level request union (`KrbKdcReq` in the source). -/
inductive KrbKdcReq
  | AsReq (r : KdcReq)
  | TgsReq (r : KdcReq)
  deriving DecidableEq, Repr

/-- Domain `KerberosRequest`, embedded from `src/proto/request.rs`. -/
inductive KerberosRequest
  | Authentication
      (nonce : Nat)
      (client_name : Name)
      (service_name : Name)
      (from_time : Option Nat)
      (until_time : Nat)
      (renew : Option Nat)
      (preauth : Preauth)
      (etypes : List EncryptionType)
  | TicketGrant
  deriving DecidableEq, Repr

/-- Builder for the `Authentication` variant, embedded from
`src/proto/request.rs` (`KerberosAuthenticationBuilder`). -/
structure KerberosAuthenticationBuilder where
  client_name : Name
  service_name : Name
  from_time : Option Nat
  until_time : Nat
  renew : Option Nat
  preauth : Option Preauth
  etypes : List EncryptionType
  deriving DecidableEq, Repr

/-- Embeds `KerberosRequest::build_as`: proposed encryption types
default to the single supported algorithm. -/
def KerberosRequest.build_as (client_name service_name : Name)
    (until_time : Nat) : KerberosAuthenticationBuilder :=
  { client_name := client_name
    service_name := service_name
    from_time := none
    until_time := until_time
    renew := none
    preauth := none
    etypes := [EncryptionType.AES256_CTS_HMAC_SHA1_96] }

/-- Embeds the builder's `from` setter (renamed: `from` is reserved). -/
def KerberosAuthenticationBuilder.set_from
    (b : KerberosAuthenticationBuilder) (f : Option Nat) :
    KerberosAuthenticationBuilder :=
  { b with from_time := f }

/-- Embeds the builder's `renew_until` setter. -/
def KerberosAuthenticationBuilder.renew_until
    (b : KerberosAuthenticationBuilder) (r : Option Nat) :
    KerberosAuthenticationBuilder :=
  { b with renew := r }

/-- Embeds `KerberosAuthenticationBuilder::build`.  The thread-local RNG
draw (`thread_rng().gen::<u32>()`) is an explicit argument `rand`; the
source then masks it with `0x7fff_ffff` to keep the nonce below `2^31`
(MIT KRB5 interoperability). -/
def KerberosAuthenticationBuilder.build
    (b : KerberosAuthenticationBuilder) (rand : Nat) : KerberosRequest :=
  let nonce := (rand % 2 ^ 32) &&& 0x7fffffff
  let preauth := b.preauth.getD {}
  .Authentication nonce b.client_name b.service_name b.from_time b.until_time
    b.renew preauth b.etypes

/-- Accessor for the nonce of a built request. -/
def KerberosRequest.nonce : KerberosRequest → Nat
  | .Authentication n _ _ _ _ _ _ _ => n
  | .TicketGrant => 0

/-- Modelled from the spec: the leaf DER decoder for the wire
`EncryptedData` structure (partial inverse of
`KdcEncryptedData.to_der`); an undecodable payload is a `DerDecodePaData`
failure per spec §4.3. -/
def KdcEncryptedData.from_der (bs : List Nat) : Except KrbError KdcEncryptedData :=
  match bs with
  | e :: k :: cipher =>
    .ok { etype := (e : Int)
          kvno := match k with | 0 => none | Nat.succ k' => some k'
          cipher := cipher }
  | _ => .error .DerDecodePaData

/-- Modelled from the spec: `Preauth::try_from` on a wire `PA-DATA`
list (missing `src/proto/mod.rs`); spec §4.3: pre-auth data is decoded
entry-by-entry, an entry whose payload cannot be DER-decoded as its
expected structure fails, other entry types are passed over. -/
def Preauth.try_from (pavec : List PaData) : Except KrbError Preauth :=
  pavec.foldlM
    (fun (acc : Preauth) (pd : PaData) =>
      if pd.padata_type = PaDataType.PaFxCookie then
        .ok { acc with pa_fx_cookie := some pd.padata_value }
      else if pd.padata_type = PaDataType.PaEncTimestamp then
        match KdcEncryptedData.from_der pd.padata_value with
        | .error e => .error e
        | .ok ked =>
          if ked.etype = 18 then
            .ok { acc with
                  enc_timestamp := some (.Aes256CtsHmacSha196 ked.kvno ked.cipher) }
          else .error .UnsupportedEncryption
      else .ok acc)
    {}

/-- Helper embedding the `expect` on `KerberosTime::from_system_time`
applied through `Option::map` in `try_into` (`src/proto/request.rs`
lines 175–184): an unrepresentable time unwinds. -/
def kt_opt (t : Option Nat) : PResult KrbError (Option Nat) :=
  match t with
  | none => .ok none
  | some s =>
    match kerberos_time_from_unix s with
    | none => .panicked
    | some k => .ok (some k)

/-- Embeds the `padata` construction at the top of the `Authentication`
arm of `impl TryInto<KrbKdcReq> for KerberosRequest`
(`src/proto/request.rs` lines 104–156), named here so that theorems can
speak about it: the list is emitted only when a cookie or an encrypted
timestamp is present (otherwise the field is `None`), the cookie entry
comes first, and the encrypted-timestamp entry wraps a wire
`EncryptedData` whose `kvno` field is hard-coded `None` — the domain
key-version number is discarded. -/
def asreq_padata (preauth : Preauth) : Option (List PaData) :=
  if preauth.pa_fx_cookie.isSome || preauth.enc_timestamp.isSome then
    some
      ((match preauth.pa_fx_cookie with
        | some fx_cookie => [⟨PaDataType.PaFxCookie, fx_cookie⟩]
        | none => []) ++
       (match preauth.enc_timestamp with
        | some (.Aes256CtsHmacSha196 _ data) =>
          [⟨PaDataType.PaEncTimestamp,
            KdcEncryptedData.to_der
              { etype := EncryptionType.AES256_CTS_HMAC_SHA1_96.code
                kvno := none
                cipher := data }⟩]
        | none => []))
  else none

/-- Embeds `impl TryInto<KrbKdcReq> for KerberosRequest`
(`src/proto/request.rs` lines 89–198).  The `Authentication` arm builds
the optional `padata` list (see `asreq_padata`), converts the names,
and converts the three times through `expect` (a panic on
unrepresentable input).  The `TicketGrant` arm is `todo!()`, an
unconditional panic. -/
def try_into_krb_kdc_req : KerberosRequest → PResult KrbError KrbKdcReq
  | .TicketGrant => .panicked
  | .Authentication nonce client_name service_name from_time until_time renew
      preauth etypes =>
    let padata : Option (List PaData) := asreq_padata preauth
    let cname_realm := client_name.to_principal_realm
    let sname := service_name.to_principal
    (kt_opt from_time).bind fun from_kt =>
    (match kerberos_time_from_unix until_time with
     | none => PResult.panicked
     | some t => PResult.ok t).bind fun till_kt =>
    (kt_opt renew).bind fun rtime_kt =>
    .ok (.AsReq
      { pvno := 5
        msg_type := KrbMessageType.KrbAsReq.code
        padata := padata
        req_body :=
          { kdc_options := [0x00, 0x80, 0x00, 0x00]
            cname := some cname_realm.1
            realm := cname_realm.2
            sname := some sname
            from_time := from_kt
            till := till_kt
            rtime := rtime_kt
            nonce := nonce
            etype := etypes.map EncryptionType.code } })

/-- Embeds `impl TryFrom<KdcReq> for KerberosRequest`
(`src/proto/request.rs` lines 340–414): pvno must be 5, the message
type must parse and be a request; the AS-REQ arm filters proposed
encryption types down to the supported subset, decodes `padata` into a
`Preauth`, requires `cname`/`sname`, and rebuilds the domain value; the
TGS-REQ arm is `todo!()`, an unconditional panic. -/
def try_from_kdc_req (req : KdcReq) : PResult KrbError KerberosRequest :=
  if req.pvno ≠ 5 then .err .InvalidPvno
  else
    match KrbMessageType.try_from req.msg_type with
    | none => .err .InvalidMessageType
    | some .KrbAsReq =>
      let etypes := req.req_body.etype.filterMap fun etype =>
        (EncryptionType.try_from etype).bind fun et =>
          match et with
          | .AES256_CTS_HMAC_SHA1_96 => some et
          | _ => none
      (match req.padata with
       | some pavec =>
         match Preauth.try_from pavec with
         | .error e => PResult.err e
         | .ok p => PResult.ok p
       | none => PResult.ok {}).bind fun preauth =>
      match req.req_body.cname with
      | none => .err .MissingClientName
      | some cname =>
        -- the source unwraps the (cname, realm) conversion
        (match Name.try_from_principal_realm cname req.req_body.realm with
         | .error _ => PResult.panicked
         | .ok n => PResult.ok n).bind fun client_name =>
        match req.req_body.sname with
        | none => .err .MissingServiceNameWithRealm
        | some s =>
          match Name.try_from_principal s with
          | .error e => .err e
          | .ok service_name =>
            .ok (.Authentication req.req_body.nonce client_name service_name
              req.req_body.from_time req.req_body.till req.req_body.rtime
              preauth etypes)
    | some .KrbTgsReq => .panicked
    | some _ => .err .InvalidMessageDirection

/-- Embeds `impl TryFrom<KrbKdcReq> for KerberosRequest`
(`src/proto/request.rs` lines 200–210): both wire arms feed the inner
`KdcReq` conversion. -/
def try_from_krb_kdc_req : KrbKdcReq → PResult KrbError KerberosRequest
  | .AsReq r => try_from_kdc_req r
  | .TgsReq r => try_from_kdc_req r

/-- Interface of the crypto subsystem (`src/crypto.rs` is not among the
given sources; spec §4.1 fixes the signatures: string-to-key with
internal realm+principal salt, string-to-key with external salt, and
key-usage-scoped encryption).  The pre-auth claims quantify over these
operations, so nothing about their internals is assumed. -/
structure CryptoOps where
  derive_key : String → String → String → Option Nat → Except KrbError (List Nat)
  derive_key_external_salt : String → String → Option Nat → Except KrbError (List Nat)
  encrypt : List Nat → List Nat → Nat → Except KrbError (List Nat)

/-- Big-endian `u32::from_be_bytes` on a 4-byte list. -/
def u32_from_be_bytes (ps : List Nat) : Nat :=
  ps.foldl (fun a b => a * 256 + b) 0

/-- Embeds the s2kparams handling inside `preauth_enc_ts`
(`src/proto/request.rs` lines 262–272): present parameters must be
exactly 4 bytes, which are read as a big-endian iteration count. -/
def s2k_iter_count : Option (List Nat) → Except KrbError (Option Nat)
  | none => .ok none
  | some s2kparams =>
    if s2kparams.length ≠ 4 then .error .PreAuthInvalidS2KParams
    else .ok (some (u32_from_be_bytes s2kparams))

/-- Embeds `KerberosAuthenticationBuilder::preauth_enc_ts`
(`src/proto/request.rs` lines 223–307), in source order: reject when
encrypted-timestamp is not advertised; take the **last** entry of
`etype_info2` (`Vec::last`), failing when the list is empty; convert the
timestamp (seconds part, microseconds split off) to `KerberosTime`;
DER-encode the `PaEncTsEnc`; then, only for a supported algorithm,
check the s2kparams, derive the key (external salt when present, else
realm+principal), encrypt with key-usage 1, and store the result plus
the echoed cookie into the builder's `Preauth`.  An unsupported
algorithm on the selected entry is `UnsupportedEncryption`. -/
def KerberosAuthenticationBuilder.preauth_enc_ts (ops : CryptoOps)
    (b : KerberosAuthenticationBuilder) (pa_data : PreauthData)
    (passphrase : String) (epoch_secs : Nat) (epoch_micros : Nat) :
    Except KrbError KerberosAuthenticationBuilder :=
  if !pa_data.enc_timestamp then .error .PreAuthUnsupported
  else
    match pa_data.etype_info2.getLast? with
    | none => .error .PreAuthMissingEtypeInfo2
    | some einfo2 =>
      match kerberos_time_from_unix epoch_secs with
      | none => .error .PreAuthInvalidUnixTs
      | some patimestamp =>
        let data := pa_enc_ts_enc_to_der patimestamp epoch_micros
        let enc_res : Except KrbError EncryptedData :=
          match einfo2.etype with
          | .AES256_CTS_HMAC_SHA1_96 =>
            match s2k_iter_count einfo2.s2kparams with
            | .error e => .error e
            | .ok iter_count =>
              let key_res :=
                match einfo2.salt with
                | some external_salt =>
                  ops.derive_key_external_salt passphrase external_salt iter_count
                | none =>
                  match b.client_name.principal_name with
                  | .error e => .error e
                  | .ok cr => ops.derive_key passphrase cr.2 cr.1 iter_count
              match key_res with
              | .error e => .error e
              | .ok base_key =>
                match ops.encrypt base_key data 1 with
                | .error e => .error e
                | .ok cdata => .ok (.Aes256CtsHmacSha196 none cdata)
          | _ => .error .UnsupportedEncryption
        match enc_res with
        | .error e => .error e
        | .ok enc_timestamp =>
          .ok { b with preauth := some { enc_timestamp := some enc_timestamp
                                         pa_fx_cookie := pa_data.pa_fx_cookie } }

/-- Modelled from the spec: `KerberosResponse` (parsed in repository
files outside the given sources).  Spec §3: a sum over a successful
authentication reply, a pre-auth-required reply and other protocol
errors.  The codec claims treat its DER decoder as a parameter, so the
payload types are irrelevant here. -/
inductive KerberosResponse
  | AsRep
  | PaRep
  | ErrRep
  deriving DecidableEq, Repr

/-- Outcome of one record read by the `XdrRecordReader` iterator inside
`decode`: a complete record with the unconsumed remainder of the
buffer, a clean EOF before any record byte, or a truncated read
(`read_exact` hitting end of input), which surfaces as an io error. -/
inductive RecordRead
  | record (r : List Nat) (rest : List Nat)
  | no_record
  | short_input
  deriving DecidableEq, Repr

/-- RFC 1831 record reading as performed by
`XdrRecordReader::into_iter().next()` with `set_implicit_eor(true)`
(`src/lib.rs` lines 57–61), modelled from RFC 1831 §10 and spec
§4.5/§6: each fragment is a 4-byte big-endian header (bit 31 =
last-fragment flag, low 31 bits = length) followed by that many payload
bytes; fragments are concatenated until a last fragment.  End of input
at a record boundary before any byte is a clean EOF; end of input at a
fragment boundary ends the record (implicit end-of-record); a header or
fragment cut off mid-way is a failed exact read.  In every non-record
outcome the reader has irrecoverably consumed the inspected bytes (a
`Read` cannot unread, and the reader is dropped when `decode`
returns). -/
def read_record_aux (acc : List Nat) (buf : List Nat) (fuel : Nat) :
    RecordRead :=
  match buf, fuel with
  | b0 :: b1 :: b2 :: b3 :: rest, fuel + 1 =>
    let len := (b0 % 128) * 2 ^ 24 + b1 * 2 ^ 16 + b2 * 2 ^ 8 + b3
    let is_last := 128 ≤ b0
    if rest.length < len then .short_input
    else
      let frag := rest.take len
      let rem := rest.drop len
      if is_last then .record (acc ++ frag) rem
      else read_record_aux (acc ++ frag) rem fuel
  | [], _ => if acc.isEmpty then .no_record else .record acc []
  | _, _ => .short_input

/-- One record read from the buffer.  The fuel argument of
`read_record_aux` only bounds the fragment loop: every iteration
consumes at least the four header bytes, so `buf.length + 1` steps are
never exhausted and the fuel case is unreachable from this wrapper. -/
def read_record (buf : List Nat) : RecordRead :=
  read_record_aux [] buf (buf.length + 1)

/-- Result of one `KerberosTcpCodec::decode` call.  `ok` is
`Ok(Some(response))`; `eof_err` is the explicit
`Err(UnexpectedEof, "XDR reader returned EOF")` return; `io_err` is an
error propagated from the record reader; `panicked` is the
`.expect("Failed to decode")` unwinding path.  The source never returns
`Ok(None)`, so no such outcome exists. -/
inductive DecodeResult
  | ok (r : KerberosResponse)
  | eof_err
  | io_err
  | panicked
  deriving DecidableEq, Repr

/-- Embeds `KerberosTcpCodec::decode` (`src/lib.rs` lines 56–81): build
a fresh record reader over the buffer, take one record, then
`KerberosResponse::from_der(..).map_err(..).expect("Failed to decode")`.
The DER decoder is a parameter (`from_der`); the returned list is what
remains in `buf` after the call (bytes consumed by the reader are gone
even when no record was produced). -/
def KerberosTcpCodec.decode
    (from_der : List Nat → Except Unit KerberosResponse)
    (buf : List Nat) : DecodeResult × List Nat :=
  match read_record buf with
  | .no_record => (.eof_err, [])
  | .short_input => (.io_err, [])
  | .record r rest =>
    match from_der r with
    | .error _ => (.panicked, rest)
    | .ok rep => (.ok rep, rest)

/-- Result of one `KerberosTcpCodec::encode` call: success, the mapped
DER-serialization error, or a failed `debug_assert!` (which unwinds only
when debug assertions are compiled in). -/
inductive EncodeResult
  | done
  | io_err
  | panicked
  deriving DecidableEq, Repr

/-- RFC 1831 record header for a single implicit end-of-record fragment:
last-fragment bit set, 31-bit big-endian length. -/
def record_header (len : Nat) : List Nat :=
  [128 + (len / 2 ^ 24) % 128, (len / 2 ^ 16) % 256, (len / 2 ^ 8) % 256,
   len % 256]

/-- One framed record as written by `XdrRecordWriter` with
`set_implicit_eor(true)`: exactly one fragment marked last (spec §6). -/
def write_record (payload : List Nat) : List Nat :=
  record_header payload.length ++ payload

/-- Embeds `KerberosTcpCodec::encode` (`src/lib.rs` lines 87–118)
exactly as written: `debug_assert!(buf.is_empty())`, DER-serialize the
message (parameter `to_der_result`), then
`debug_assert!(buf.len() <= self.max_size)` — note the source compares
the length of the still-untouched output buffer `buf`, not of
`der_bytes`, and only when debug assertions are enabled — then frame
the DER bytes onto the buffer.  `debug_assertions` selects the build
configuration. -/
def KerberosTcpCodec.encode (debug_assertions : Bool) (max_size : Nat)
    (to_der_result : Except Unit (List Nat)) (buf : List Nat) :
    EncodeResult × List Nat :=
  if debug_assertions ∧ ¬buf.isEmpty then (.panicked, buf)
  else
    match to_der_result with
    | .error _ => (.io_err, buf)
    | .ok der_bytes =>
      if debug_assertions ∧ ¬(buf.length ≤ max_size) then (.panicked, buf)
      else (.done, buf ++ write_record der_bytes)

/-- Concrete crypto operations used by witnesses: derivation returns a
fixed key, encryption tags key, data and usage together (injectively),
so data flow stays visible. -/
def opsW : CryptoOps :=
  { derive_key := fun _ _ _ _ => .ok [1]
    derive_key_external_salt := fun _ _ _ => .ok [2]
    encrypt := fun k d u => .ok (k ++ d ++ [u]) }

/-- Concrete builder used by witnesses: the spec §8 example principal
and service. -/
def bW : KerberosAuthenticationBuilder :=
  KerberosRequest.build_as (.principal "alice" "EXAMPLE.COM")
    (.srv_inst "krbtgt" "EXAMPLE.COM") 1000

/-- C1: the claim says a decode invocation whose reassembled record is
not valid DER for a `KerberosResponse` returns a typed error and never
panics.  The code does the opposite: `from_der(..)` has its error
mapped and is then fed to `.expect("Failed to decode")`
(`src/lib.rs` line 78), an unconditional unwinding path.  For the
complete well-formed one-byte record `[0x80,0,0,1,0x6a]`, any DER
decoder that rejects the one-byte payload `[0x6a]` makes `decode`
panic instead of returning the error. -/
theorem C1_decode_panics_on_invalid_der
    (from_der : List Nat → Except Unit KerberosResponse)
    (h : from_der [106] = .error ()) :
    read_record [128, 0, 0, 1, 106] = .record [106] [] ∧
    KerberosTcpCodec.decode from_der [128, 0, 0, 1, 106] = (.panicked, []) := by
  have e : KerberosTcpCodec.decode from_der [128, 0, 0, 1, 106] =
      (match from_der [106] with
       | .error _ => (.panicked, [])
       | .ok rep => (.ok rep, [])) := rfl
  exact ⟨rfl, by rw [e, h]⟩

/-- Witness for C1 at the concrete always-failing DER decoder. -/
theorem C1_decode_panics_on_invalid_der_witness :
    KerberosTcpCodec.decode (fun _ => .error ()) [128, 0, 0, 1, 106] =
      (.panicked, []) :=
  (C1_decode_panics_on_invalid_der (fun _ => .error ()) rfl).2

/-- C2: the claim says a record delivered split across two non-aligned
writes yields exactly one decoded response once all bytes have arrived,
only a retriable not-ready outcome before that, and that unconsumed
buffered bytes are resumed from on the next call.  The code rebuilds
its record reader per call over a consuming `bytes` reader, so for the
record `[0x80,0,0,1,0x6a]` split as `[0x80,0x00]` then
`[0x00,0x01,0x6a]`: the first call consumes both delivered bytes into
the dropped reader and returns a hard io error (the source never
returns `Ok(None)`), leaving an empty buffer — the two bytes cannot be
resumed from — and the second call, seeing only the remaining three
bytes, errors the same way; no call ever yields the response. -/
theorem C2_decode_loses_split_record
    (from_der : List Nat → Except Unit KerberosResponse) :
    KerberosTcpCodec.decode from_der [128, 0] = (.io_err, []) ∧
    KerberosTcpCodec.decode from_der [0, 1, 106] = (.io_err, []) :=
  ⟨rfl, rfl⟩

/-- C3: the claim says a request whose DER serialization exceeds the
configured maximum size makes `encode` fail with a hard error in every
build configuration.  The code only has
`debug_assert!(buf.len() <= self.max_size)` (`src/lib.rs` line 94),
which (a) is compiled out of release builds and (b) measures the
still-empty output buffer rather than `der_bytes`, so even with debug
assertions enabled an arbitrarily oversized message is framed and
emitted in full, with no error. -/
theorem C3_encode_ignores_max_size (debug_assertions : Bool)
    (max_size : Nat) (der_bytes : List Nat)
    (h : max_size < der_bytes.length) :
    KerberosTcpCodec.encode debug_assertions max_size (.ok der_bytes) [] =
      (.done, write_record der_bytes) ∧
    (write_record der_bytes).length = der_bytes.length + 4 := by
  constructor
  · cases debug_assertions <;> simp [KerberosTcpCodec.encode]
  · simp [write_record, record_header]

/-- Witness for C3: a 3-byte message with a 1-byte limit is emitted in
full in both build configurations. -/
theorem C3_encode_ignores_max_size_witness :
    (KerberosTcpCodec.encode true 1 (.ok [7, 7, 7]) [] =
      (.done, write_record [7, 7, 7]) ∧
     (write_record [7, 7, 7]).length = 3 + 4) ∧
    (KerberosTcpCodec.encode false 1 (.ok [7, 7, 7]) [] =
      (.done, write_record [7, 7, 7]) ∧
     (write_record [7, 7, 7]).length = 3 + 4) :=
  ⟨C3_encode_ignores_max_size true 1 [7, 7, 7] (by decide),
   C3_encode_ignores_max_size false 1 [7, 7, 7] (by decide)⟩

/-- C4: the claim says the TGS-REQ wire arm and the `TicketGrant`
serialization arm return an explicit error and never abort.  Both arms
are `todo!()` in the code (`src/proto/request.rs` lines 193–195 and
408–410), an unconditional panic, exercised here on a minimal TGS-REQ
(pvno 5, msg_type 12) and on `TicketGrant` itself. -/
theorem C4_tgs_paths_panic :
    try_into_krb_kdc_req .TicketGrant = .panicked ∧
    try_from_kdc_req ⟨5, 12, none, ⟨[], none, "", none, none, 0, none, 0, []⟩⟩ =
      .panicked ∧
    try_from_krb_kdc_req
        (.TgsReq ⟨5, 12, none, ⟨[], none, "", none, none, 0, none, 0, []⟩⟩) =
      .panicked :=
  ⟨rfl, rfl, rfl⟩

/-- C7: every request produced by `build()` has a nonce below `2^31`:
the random draw is masked with `0x7fff_ffff`, so the high bit of the
32-bit value is always zero. -/
theorem C7_nonce_bound (b : KerberosAuthenticationBuilder) (rand : Nat) :
    (b.build rand).nonce < 2 ^ 31 := by
  show (rand % 2 ^ 32) &&& 0x7fffffff < 2 ^ 31
  calc (rand % 2 ^ 32) &&& 0x7fffffff ≤ 0x7fffffff := Nat.and_le_right
    _ < 2 ^ 31 := by norm_num

/-- C5 counterexample: the claim says `preauth_enc_ts` selects the last
entry of `etype_info2` whose algorithm is supported, skipping
unsupported trailing entries.  On a list whose first entry is the
supported algorithm and whose last entry is not, the code takes
`Vec::last` unconditionally and fails with `UnsupportedEncryption`
instead of succeeding with the earlier supported entry. -/
theorem C5_counterexample :
    bW.preauth_enc_ts opsW
      ⟨true,
       [⟨.AES256_CTS_HMAC_SHA1_96, none, none⟩,
        ⟨.AES128_CTS_HMAC_SHA1_96, none, none⟩],
       some [5]⟩
      "password" 0 0 = .error .UnsupportedEncryption := rfl

/-- C5 as amended: `preauth_enc_ts` selects the last entry of
`etype_info2` unconditionally (no skipping of unsupported trailing
entries).  When that entry's algorithm is supported it derives the key
from the entry's external salt when present (first part) or from the
client realm+principal salt otherwise (second part), encrypts the
DER-encoded timestamp with key-usage value 1, and stores the resulting
`EncryptedData` together with the echoed `pa_fx_cookie` into the
builder's `Preauth`; when the last entry's algorithm is unsupported it
fails with `UnsupportedEncryption` even if an earlier entry is
supported (third part). -/
theorem C5_last_entry_selected :
    (∀ (ops : CryptoOps) (b : KerberosAuthenticationBuilder) (pa : PreauthData)
      (pass : String) (secs usecs : Nat) (e : ETypeInfo2Entry) (ic : Option Nat)
      (ext : String) (k c : List Nat),
      pa.enc_timestamp = true →
      pa.etype_info2.getLast? = some e →
      e.etype = .AES256_CTS_HMAC_SHA1_96 →
      secs < kerberosTimeMax →
      s2k_iter_count e.s2kparams = .ok ic →
      e.salt = some ext →
      ops.derive_key_external_salt pass ext ic = .ok k →
      ops.encrypt k (pa_enc_ts_enc_to_der secs usecs) 1 = .ok c →
      b.preauth_enc_ts ops pa pass secs usecs =
        .ok { b with
              preauth := some ⟨some (.Aes256CtsHmacSha196 none c),
                               pa.pa_fx_cookie⟩ }) ∧
    (∀ (ops : CryptoOps) (b : KerberosAuthenticationBuilder) (pa : PreauthData)
      (pass : String) (secs usecs : Nat) (e : ETypeInfo2Entry) (ic : Option Nat)
      (cn realm : String) (k c : List Nat),
      pa.enc_timestamp = true →
      pa.etype_info2.getLast? = some e →
      e.etype = .AES256_CTS_HMAC_SHA1_96 →
      secs < kerberosTimeMax →
      s2k_iter_count e.s2kparams = .ok ic →
      e.salt = none →
      b.client_name.principal_name = .ok (cn, realm) →
      ops.derive_key pass realm cn ic = .ok k →
      ops.encrypt k (pa_enc_ts_enc_to_der secs usecs) 1 = .ok c →
      b.preauth_enc_ts ops pa pass secs usecs =
        .ok { b with
              preauth := some ⟨some (.Aes256CtsHmacSha196 none c),
                               pa.pa_fx_cookie⟩ }) ∧
    (∀ (ops : CryptoOps) (b : KerberosAuthenticationBuilder) (pa : PreauthData)
      (pass : String) (secs usecs : Nat) (e : ETypeInfo2Entry),
      pa.enc_timestamp = true →
      pa.etype_info2.getLast? = some e →
      e.etype ≠ .AES256_CTS_HMAC_SHA1_96 →
      secs < kerberosTimeMax →
      b.preauth_enc_ts ops pa pass secs usecs =
        .error .UnsupportedEncryption) := by
  refine ⟨?_, ?_, ?_⟩
  · intro ops b pa pass secs usecs e ic ext k c hts hlast hety hsecs hs2k hsalt
      hkey henc
    have hkt : kerberos_time_from_unix secs = some secs := by
      simp [kerberos_time_from_unix, hsecs]
    obtain ⟨et, osalt, os2k⟩ := e
    simp only at hety hsalt hs2k
    subst hety hsalt
    simp only [KerberosAuthenticationBuilder.preauth_enc_ts, hts, Bool.not_true,
      Bool.false_eq_true, if_false, hlast, hkt, hs2k, hkey, henc]
  · intro ops b pa pass secs usecs e ic cn realm k c hts hlast hety hsecs hs2k
      hsalt hname hkey henc
    have hkt : kerberos_time_from_unix secs = some secs := by
      simp [kerberos_time_from_unix, hsecs]
    obtain ⟨et, osalt, os2k⟩ := e
    simp only at hety hsalt hs2k
    subst hety hsalt
    simp only [KerberosAuthenticationBuilder.preauth_enc_ts, hts, Bool.not_true,
      Bool.false_eq_true, if_false, hlast, hkt, hs2k, hname, hkey, henc]
  · intro ops b pa pass secs usecs e hts hlast hety hsecs
    have hkt : kerberos_time_from_unix secs = some secs := by
      simp [kerberos_time_from_unix, hsecs]
    obtain ⟨et, osalt, os2k⟩ := e
    simp only at hety
    simp only [KerberosAuthenticationBuilder.preauth_enc_ts, hts, Bool.not_true,
      Bool.false_eq_true, if_false, hlast, hkt]

/-- Witness for C5 at concrete inputs: external-salt entry, internal
(realm+principal) entry, and an unsupported-last-entry failure. -/
theorem C5_last_entry_selected_witness :
    (bW.preauth_enc_ts opsW
      ⟨true, [⟨.AES256_CTS_HMAC_SHA1_96, some "SALT", some [0, 0, 16, 0]⟩],
       some [9]⟩ "password" 7 3 =
      .ok { bW with
            preauth := some ⟨some (.Aes256CtsHmacSha196 none
                               ([2] ++ [7, 3] ++ [1])), some [9]⟩ }) ∧
    (bW.preauth_enc_ts opsW
      ⟨true, [⟨.AES256_CTS_HMAC_SHA1_96, none, none⟩], none⟩ "password" 7 3 =
      .ok { bW with
            preauth := some ⟨some (.Aes256CtsHmacSha196 none
                               ([1] ++ [7, 3] ++ [1])), none⟩ }) ∧
    (bW.preauth_enc_ts opsW
      ⟨true, [⟨.AES128_CTS_HMAC_SHA1_96, none, none⟩], none⟩ "password" 7 3 =
      .error .UnsupportedEncryption) :=
  ⟨C5_last_entry_selected.1 opsW bW _ "password" 7 3 _ (some 4096) "SALT" [2]
      ([2] ++ [7, 3] ++ [1]) rfl rfl rfl (by decide) rfl rfl rfl rfl,
   C5_last_entry_selected.2.1 opsW bW _ "password" 7 3 _ none "alice"
      "EXAMPLE.COM" [1] ([1] ++ [7, 3] ++ [1]) rfl rfl rfl (by decide) rfl rfl
      rfl rfl rfl,
   C5_last_entry_selected.2.2 opsW bW _ "password" 7 3 _ rfl rfl (by decide)
      (by decide)⟩

/-- C8 counterexample: the claim says `preauth_enc_ts` fails with the
invalid-S2K-params kind whenever the selected entry carries iteration
parameters whose byte length is not exactly 4.  When the selected
(last) entry carries 3-byte parameters but an unsupported algorithm,
the code fails with `UnsupportedEncryption` instead: the s2kparams
check sits inside the supported-algorithm arm. -/
theorem C8_counterexample :
    bW.preauth_enc_ts opsW
      ⟨true, [⟨.AES128_CTS_HMAC_SHA1_96, none, some [1, 2, 3]⟩], none⟩
      "password" 0 0 = .error .UnsupportedEncryption ∧
    bW.preauth_enc_ts opsW
      ⟨true, [⟨.AES128_CTS_HMAC_SHA1_96, none, some [1, 2, 3]⟩], none⟩
      "password" 0 0 ≠ .error .PreAuthInvalidS2KParams := by
  refine ⟨rfl, fun h => ?_⟩
  have h3 : (Except.error KrbError.UnsupportedEncryption :
      Except KrbError KerberosAuthenticationBuilder) =
      .error .PreAuthInvalidS2KParams := by
    rw [← h]
    rfl
  exact absurd (Except.error.inj h3) (by decide)

/-- C8 as amended: the four error kinds are produced in the source's
check order — `PreAuthUnsupported` whenever encrypted-timestamp is not
advertised; else `PreAuthMissingEtypeInfo2` whenever `etype_info2` is
empty; else `PreAuthInvalidUnixTs` whenever the timestamp is not
representable as a `KerberosTime`; else, when the selected (last)
entry's algorithm is supported, `PreAuthInvalidS2KParams` whenever its
iteration parameters are present with byte length other than 4 — and
success implies that none of the four conditions holds. -/
theorem C8_error_kinds (ops : CryptoOps) (b : KerberosAuthenticationBuilder)
    (pa : PreauthData) (pass : String) (secs usecs : Nat) :
    (pa.enc_timestamp = false →
      b.preauth_enc_ts ops pa pass secs usecs = .error .PreAuthUnsupported) ∧
    (pa.enc_timestamp = true → pa.etype_info2 = [] →
      b.preauth_enc_ts ops pa pass secs usecs =
        .error .PreAuthMissingEtypeInfo2) ∧
    (pa.enc_timestamp = true → pa.etype_info2 ≠ [] → kerberosTimeMax ≤ secs →
      b.preauth_enc_ts ops pa pass secs usecs = .error .PreAuthInvalidUnixTs) ∧
    (∀ e ps, pa.enc_timestamp = true → pa.etype_info2.getLast? = some e →
      secs < kerberosTimeMax → e.etype = .AES256_CTS_HMAC_SHA1_96 →
      e.s2kparams = some ps → ps.length ≠ 4 →
      b.preauth_enc_ts ops pa pass secs usecs =
        .error .PreAuthInvalidS2KParams) ∧
    (∀ b', b.preauth_enc_ts ops pa pass secs usecs = .ok b' →
      pa.enc_timestamp = true ∧ pa.etype_info2 ≠ [] ∧ secs < kerberosTimeMax ∧
      ∀ e ps, pa.etype_info2.getLast? = some e → e.s2kparams = some ps →
        ps.length = 4) := by
  refine ⟨?_, ?_, ?_, ?_, ?_⟩
  · intro hts
    simp [KerberosAuthenticationBuilder.preauth_enc_ts, hts]
  · intro hts hnil
    simp [KerberosAuthenticationBuilder.preauth_enc_ts, hts, hnil]
  · intro hts hne hge
    obtain ⟨e, hL⟩ : ∃ e, pa.etype_info2.getLast? = some e := by
      cases hL : pa.etype_info2.getLast? with
      | none => exact absurd (List.getLast?_eq_none_iff.mp hL) hne
      | some e => exact ⟨e, rfl⟩
    have hkt : kerberos_time_from_unix secs = none := by
      simp [kerberos_time_from_unix, Nat.not_lt.mpr hge]
    simp only [KerberosAuthenticationBuilder.preauth_enc_ts, hts, Bool.not_true,
      Bool.false_eq_true, if_false, hL, hkt]
  · intro e ps hts hL hsecs hety hps hlen
    have hkt : kerberos_time_from_unix secs = some secs := by
      simp [kerberos_time_from_unix, hsecs]
    have hs2k : s2k_iter_count e.s2kparams = .error .PreAuthInvalidS2KParams := by
      simp [s2k_iter_count, hps, hlen]
    obtain ⟨et, osalt, os2k⟩ := e
    simp only at hety
    subst hety
    simp only [KerberosAuthenticationBuilder.preauth_enc_ts, hts, Bool.not_true,
      Bool.false_eq_true, if_false, hL, hkt, hs2k]
  · intro b' hok
    by_cases hts : pa.enc_timestamp = true
    · refine ⟨hts, ?_⟩
      simp only [KerberosAuthenticationBuilder.preauth_enc_ts, hts, Bool.not_true,
        Bool.false_eq_true, if_false] at hok
      cases hL : pa.etype_info2.getLast? with
      | none =>
        simp only [hL] at hok
        exact nomatch hok
      | some einfo2 =>
        simp only [hL] at hok
        have hne : pa.etype_info2 ≠ [] := by
          intro hnil
          rw [hnil] at hL
          exact nomatch hL
        cases hT : kerberos_time_from_unix secs with
        | none =>
          simp only [hT] at hok
          exact nomatch hok
        | some t =>
          simp only [hT] at hok
          have hsecs : secs < kerberosTimeMax := by
            by_contra hge
            simp [kerberos_time_from_unix, hge] at hT
          refine ⟨hne, hsecs, ?_⟩
          intro e ps hL2 hps
          obtain rfl : einfo2 = e := Option.some.inj hL2
          cases hety : einfo2.etype with
          | AES256_CTS_HMAC_SHA1_96 =>
            simp only [hety] at hok
            cases hs : s2k_iter_count einfo2.s2kparams with
            | error e2 =>
              simp only [hs] at hok
              exact nomatch hok
            | ok ic =>
              rw [hps] at hs
              by_contra hlen
              simp [s2k_iter_count, hlen] at hs
          | AES128_CTS_HMAC_SHA1_96 =>
            simp only [hety] at hok
            exact nomatch hok
          | RC4_HMAC =>
            simp only [hety] at hok
            exact nomatch hok
    · simp only [Bool.not_eq_true] at hts
      simp [KerberosAuthenticationBuilder.preauth_enc_ts, hts] at hok

/-- Witness for C8 at concrete inputs, one per clause: not advertised;
advertised but empty list; unrepresentable timestamp; 3-byte s2kparams
on a supported entry; and the success direction on a succeeding run. -/
theorem C8_error_kinds_witness :
    (bW.preauth_enc_ts opsW
      ⟨false, [⟨.AES256_CTS_HMAC_SHA1_96, none, none⟩], none⟩ "p" 0 0 =
      .error .PreAuthUnsupported) ∧
    (bW.preauth_enc_ts opsW ⟨true, [], none⟩ "p" 0 0 =
      .error .PreAuthMissingEtypeInfo2) ∧
    (bW.preauth_enc_ts opsW
      ⟨true, [⟨.AES256_CTS_HMAC_SHA1_96, none, none⟩], none⟩
      "p" 253402300800 0 = .error .PreAuthInvalidUnixTs) ∧
    (bW.preauth_enc_ts opsW
      ⟨true, [⟨.AES256_CTS_HMAC_SHA1_96, none, some [1, 2, 3]⟩], none⟩
      "p" 0 0 = .error .PreAuthInvalidS2KParams) ∧
    (true = true ∧
     ([⟨.AES256_CTS_HMAC_SHA1_96, none, none⟩] : List ETypeInfo2Entry) ≠ [] ∧
     7 < kerberosTimeMax ∧
     ∀ e ps,
       ([⟨.AES256_CTS_HMAC_SHA1_96, none, none⟩] :
         List ETypeInfo2Entry).getLast? = some e →
       e.s2kparams = some ps → ps.length = 4) :=
  ⟨(C8_error_kinds opsW bW
      ⟨false, [⟨.AES256_CTS_HMAC_SHA1_96, none, none⟩], none⟩ "p" 0 0).1 rfl,
   (C8_error_kinds opsW bW ⟨true, [], none⟩ "p" 0 0).2.1 rfl rfl,
   (C8_error_kinds opsW bW
      ⟨true, [⟨.AES256_CTS_HMAC_SHA1_96, none, none⟩], none⟩
      "p" 253402300800 0).2.2.1 rfl (by decide) (by decide),
   (C8_error_kinds opsW bW
      ⟨true, [⟨.AES256_CTS_HMAC_SHA1_96, none, some [1, 2, 3]⟩], none⟩
      "p" 0 0).2.2.2.1 ⟨.AES256_CTS_HMAC_SHA1_96, none, some [1, 2, 3]⟩
      [1, 2, 3] rfl rfl (by decide) rfl rfl (by decide),
   (C8_error_kinds opsW bW
      ⟨true, [⟨.AES256_CTS_HMAC_SHA1_96, none, none⟩], none⟩
      "password" 7 3).2.2.2.2
      { bW with
        preauth := some ⟨some (.Aes256CtsHmacSha196 none
                           ([1] ++ [7, 3] ++ [1])), none⟩ } rfl⟩

/-- C9: serializing an `Authentication` request emits the wire `padata`
field as absent (`None`) exactly when the `Preauth` carries neither a
cookie nor an encrypted timestamp, never as an empty list; the field is
present if and only if at least one of the two is set (times must be
representable for serialization to succeed at all). -/
theorem C9_padata_presence (nonce : Nat) (cn sn : Name) (p : Preauth)
    (etypes : List EncryptionType) (ft rn : Option Nat) (ut : Nat)
    (hut : ut < kerberosTimeMax)
    (hft : ∀ t ∈ ft, t < kerberosTimeMax)
    (hrn : ∀ t ∈ rn, t < kerberosTimeMax) :
    ∃ w, try_into_krb_kdc_req (.Authentication nonce cn sn ft ut rn p etypes) =
        .ok (.AsReq w) ∧
      w.padata = asreq_padata p ∧
      (asreq_padata p = none ↔ p.pa_fx_cookie = none ∧ p.enc_timestamp = none) ∧
      ((asreq_padata p).isSome ↔
        p.pa_fx_cookie.isSome ∨ p.enc_timestamp.isSome) := by
  have hftk : kt_opt ft = .ok ft := by
    cases ft with
    | none => rfl
    | some t => simp [kt_opt, kerberos_time_from_unix, hft t rfl]
  have hrnk : kt_opt rn = .ok rn := by
    cases rn with
    | none => rfl
    | some t => simp [kt_opt, kerberos_time_from_unix, hrn t rfl]
  have hutk : kerberos_time_from_unix ut = some ut := by
    simp [kerberos_time_from_unix, hut]
  refine ⟨⟨5, KrbMessageType.KrbAsReq.code, asreq_padata p,
    ⟨[0x00, 0x80, 0x00, 0x00], some cn.to_principal_realm.1,
     cn.to_principal_realm.2, some sn.to_principal, ft, ut, rn, nonce,
     etypes.map EncryptionType.code⟩⟩, ?_, rfl, ?_, ?_⟩
  · simp only [try_into_krb_kdc_req, hftk, hutk, hrnk, PResult.bind]
  · obtain ⟨oe, oc⟩ := p
    cases oe <;> cases oc <;> simp [asreq_padata]
  · obtain ⟨oe, oc⟩ := p
    cases oe <;> cases oc <;> simp [asreq_padata]

/-- Witness for C9: a cookie-only `Preauth` yields a present, non-empty
`padata`; the three time bounds are discharged concretely. -/
theorem C9_padata_presence_witness :
    ∃ w, try_into_krb_kdc_req (.Authentication 1 (.principal "a" "R")
        (.srv_inst "s" "R") none 10 none ⟨none, some [7]⟩
        [.AES256_CTS_HMAC_SHA1_96]) = .ok (.AsReq w) ∧
      w.padata = asreq_padata ⟨none, some [7]⟩ ∧
      (asreq_padata ⟨none, some [7]⟩ = none ↔
        (some [7] : Option (List Nat)) = none ∧
        (none : Option EncryptedData) = none) ∧
      ((asreq_padata ⟨none, some [7]⟩).isSome ↔
        (some [7] : Option (List Nat)).isSome ∨
        (none : Option EncryptedData).isSome) :=
  C9_padata_presence 1 (.principal "a" "R") (.srv_inst "s" "R")
    ⟨none, some [7]⟩ [.AES256_CTS_HMAC_SHA1_96] none none 10 (by decide)
    (fun t ht => nomatch ht) (fun t ht => nomatch ht)

/-- C10: for a computed encrypted-timestamp `EncryptedData` carrying any
domain key-version number `kv`, serialization emits the wire
`EncryptedData` with `kvno := none` — the wire entry is independent of
`kv` (`src/proto/request.rs` line 123). -/
theorem C10_wire_kvno_none (nonce : Nat) (cn sn : Name) (kv : Option Nat)
    (d : List Nat) (cookie : Option (List Nat))
    (etypes : List EncryptionType) (ft rn : Option Nat) (ut : Nat)
    (hut : ut < kerberosTimeMax)
    (hft : ∀ t ∈ ft, t < kerberosTimeMax)
    (hrn : ∀ t ∈ rn, t < kerberosTimeMax) :
    ∃ w, try_into_krb_kdc_req (.Authentication nonce cn sn ft ut rn
        ⟨some (.Aes256CtsHmacSha196 kv d), cookie⟩ etypes) = .ok (.AsReq w) ∧
      w.padata = some ((match cookie with
          | some c => [⟨PaDataType.PaFxCookie, c⟩]
          | none => []) ++
        [⟨PaDataType.PaEncTimestamp, KdcEncryptedData.to_der ⟨18, none, d⟩⟩]) := by
  obtain ⟨w, hw, hpad, -, -⟩ := C9_padata_presence nonce cn sn
    ⟨some (.Aes256CtsHmacSha196 kv d), cookie⟩ etypes ft rn ut hut hft hrn
  refine ⟨w, hw, ?_⟩
  rw [hpad]
  cases cookie <;> rfl

/-- Witness for C10: the domain value carries `kvno = some 7`, the wire
entry still has `kvno = none`. -/
theorem C10_wire_kvno_none_witness :
    ∃ w, try_into_krb_kdc_req (.Authentication 1 (.principal "a" "R")
        (.srv_inst "s" "R") none 10 none
        ⟨some (.Aes256CtsHmacSha196 (some 7) [9, 9]), none⟩
        [.AES256_CTS_HMAC_SHA1_96]) = .ok (.AsReq w) ∧
      w.padata = some
        [⟨PaDataType.PaEncTimestamp, KdcEncryptedData.to_der ⟨18, none, [9, 9]⟩⟩] :=
  C10_wire_kvno_none 1 (.principal "a" "R") (.srv_inst "s" "R") (some 7)
    [9, 9] none [.AES256_CTS_HMAC_SHA1_96] none none 10 (by decide)
    (fun t ht => nomatch ht) (fun t ht => nomatch ht)

/-- C6: an `Authentication` request built with a client principal, a
service name with realm, an expiry (and optional representable
start/renew times), and no pre-auth round-trips through the transcoding
layer: serializing to the wire KDC-REQ and parsing back yields a value
equal in every field, the nonce included — the nonce is generated by
`build` and only copied by the transcoding — and the serialization of
the same input value is unique (the transcoder is a pure function of
the request, so repeated encodes are identical). -/
theorem C6_round_trip (cn crealm srv srealm : String) (ut rand : Nat)
    (ft rn : Option Nat)
    (hut : ut < kerberosTimeMax)
    (hft : ∀ t ∈ ft, t < kerberosTimeMax)
    (hrn : ∀ t ∈ rn, t < kerberosTimeMax) :
    let req := (((KerberosRequest.build_as (.principal cn crealm)
      (.srv_inst srv srealm) ut).set_from ft).renew_until rn).build rand
    ∃ w, try_into_krb_kdc_req req = .ok w ∧
      try_from_krb_kdc_req w = .ok req ∧
      ∀ w2, try_into_krb_kdc_req req = .ok w2 → w2 = w := by
  intro req
  have hftk : kt_opt ft = .ok ft := by
    cases ft with
    | none => rfl
    | some t => simp [kt_opt, kerberos_time_from_unix, hft t rfl]
  have hrnk : kt_opt rn = .ok rn := by
    cases rn with
    | none => rfl
    | some t => simp [kt_opt, kerberos_time_from_unix, hrn t rfl]
  have hutk : kerberos_time_from_unix ut = some ut := by
    simp [kerberos_time_from_unix, hut]
  have heq : try_into_krb_kdc_req req =
      .ok (.AsReq ⟨5, KrbMessageType.KrbAsReq.code, none,
        ⟨[0x00, 0x80, 0x00, 0x00], some ⟨1, [cn]⟩, crealm,
         some ⟨2, [srv, srealm]⟩, ft, ut, rn, (rand % 2 ^ 32) &&& 0x7fffffff,
         [18]⟩⟩) := by
    simp only [req, KerberosRequest.build_as, KerberosAuthenticationBuilder.set_from,
      KerberosAuthenticationBuilder.renew_until, KerberosAuthenticationBuilder.build,
      try_into_krb_kdc_req, hftk, hutk, hrnk, PResult.bind, asreq_padata,
      Name.to_principal_realm, Name.to_principal, EncryptionType.code,
      List.map, KrbMessageType.code]
    rfl
  have hback : try_from_krb_kdc_req
      (.AsReq ⟨5, KrbMessageType.KrbAsReq.code, none,
        ⟨[0x00, 0x80, 0x00, 0x00], some ⟨1, [cn]⟩, crealm,
         some ⟨2, [srv, srealm]⟩, ft, ut, rn, (rand % 2 ^ 32) &&& 0x7fffffff,
         [18]⟩⟩) = .ok req := by
    rfl
  exact ⟨_, heq, hback, fun w2 h2 => (PResult.ok.inj (heq.symm.trans h2)).symm⟩

/-- Witness for C6: the spec §8 round-trip example — principal "alice",
service "krbtgt", realm "EXAMPLE.COM" — with concrete times and RNG
draw. -/
theorem C6_round_trip_witness :
    let req := (((KerberosRequest.build_as
      (.principal "alice" "EXAMPLE.COM")
      (.srv_inst "krbtgt" "EXAMPLE.COM") 1000).set_from (some 3)).renew_until
      (some 4)).build 5
    ∃ w, try_into_krb_kdc_req req = .ok w ∧
      try_from_krb_kdc_req w = .ok req ∧
      ∀ w2, try_into_krb_kdc_req req = .ok w2 → w2 = w :=
  C6_round_trip "alice" "EXAMPLE.COM" "krbtgt" "EXAMPLE.COM" 1000 5 (some 3)
    (some 4) (by decide)
    (fun t ht => by
      rw [Option.mem_def, Option.some.injEq] at ht
      subst ht
      decide)
    (fun t ht => by
      rw [Option.mem_def, Option.some.injEq] at ht
      subst ht
      decide)
